import Mathlib

/-!
Verification of the smart-alarm timing and orchestration core against its
TypeScript source. Each section embeds one component of the source
(`src/components/Alarm.tsx`, the `StartMyDay` orchestrator, the
`CalendarFetcher`) as executable Lean definitions, then proves or refutes
the stated properties about them.

Modelling conventions:
- JS `Date` values are milliseconds since the epoch, as `Nat` (all times in
  this app are after 1970); `Int` is used where differences occur.
- React component state is explicit record state; a callback closure that
  captures a state variable of the render in which it was created is
  modelled by passing that captured value as an explicit argument, since
  `setState` never mutates the `const` binding an existing closure reads.
- Fallible host calls are modelled with `Except`; a `try/catch` in the
  source becomes a total wrapper around the `Except`-valued body.
-/

namespace SmartAlarm

/-! ## Wake Scheduler (src/components/Alarm.tsx, `scheduleAlarm`, lines 203-231)

`scheduleAlarm` takes the stored alarm `date` (today's date combined with the
requested wall-clock time-of-day) and the current instant, and rolls the
trigger forward one calendar day when the naive combination is not strictly
in the future: `if (triggerTime.getTime() <= now.getTime())
triggerTime.setDate(triggerTime.getDate() + 1)`. -/

def msPerDay : Nat := 86400000

/-- Calendar-day index of a timestamp (ms since epoch). -/
def dayIndex (t : Nat) : Nat := t / msPerDay

/-- Milliseconds elapsed within the calendar day of a timestamp. -/
def msOfDay (t : Nat) : Nat := t % msPerDay

/-- `triggerTime.setDate(triggerTime.getDate() + 1)`: same time-of-day on the
next calendar day (civil-day model; DST shifts are outside the model). -/
def addOneDay (t : Nat) : Nat := t + msPerDay

/-- Core decision of `scheduleAlarm`: keep the naive date-plus-time
combination if it is strictly after `now`, otherwise move it one day
forward. Equality with `now` takes the `<=` branch and rolls forward. -/
def computeTriggerTime (date now : Nat) : Nat :=
  if date ≤ now then addOneDay date else date

/-! ## Trigger registration state (src/components/Alarm.tsx, `scheduleAlarm`
and `cancelAlarm`, lines 203-336)

`notification` is the component's `useState` holding the identifier returned
by `scheduleNotificationAsync`; `pending` is the host's set of scheduled
notifications for this app. `cancelAlarm` cancels only when `notification`
is non-null, and `scheduleAlarm` always awaits `cancelAlarm()` first. -/

structure AlarmState where
  pending : List Nat
  notification : Option Nat
  nextId : Nat
  debugInfo : Option String
deriving Repr, DecidableEq

/-- `cancelAlarm` on the success path: if a notification id is stored,
cancel it with the host and clear the stored id; otherwise do nothing. -/
def cancelAlarm (s : AlarmState) : AlarmState :=
  match s.notification with
  | none => s
  | some id =>
      { s with pending := s.pending.erase id, notification := none,
               debugInfo := some "Alarm canceled" }

/-- `cancelAlarm` body without its `try/catch`: the host call
`cancelScheduledNotificationAsync` may throw, in which case the statements
after the `await` (clearing the stored id) do not run. -/
def cancelAlarmBody (hostOk : Bool) (s : AlarmState) : Except String AlarmState :=
  match s.notification with
  | none => Except.ok s
  | some id =>
      if hostOk then
        Except.ok { s with pending := s.pending.erase id, notification := none,
                           debugInfo := some "Alarm canceled" }
      else Except.error "cancelScheduledNotificationAsync failed"

/-- `cancelAlarm` as written in the source: the whole body is wrapped in
`try/catch`, and the catch only sets `debugInfo` — no error escapes. -/
def cancelAlarmCaught (hostOk : Bool) (s : AlarmState) : AlarmState :=
  match cancelAlarmBody hostOk s with
  | Except.ok t => t
  | Except.error e => { s with debugInfo := some ("Error: " ++ e) }

/-- `scheduleAlarm` on the success path: first `await cancelAlarm()`, then
register a fresh notification with the host and store its identifier. -/
def scheduleAlarm (s : AlarmState) : AlarmState :=
  let s1 := cancelAlarm s
  { s1 with pending := s1.pending ++ [s1.nextId],
            notification := some s1.nextId,
            nextId := s1.nextId + 1,
            debugInfo := some "Alarm scheduled" }

/-- One `scheduleAlarm` invocation as a function of the `notification`
value its closure captured — the state of the render that created the
closure, which can lag the latest `setNotification` when two invocations
overlap: `await cancelAlarm()` cancels the captured id (or nothing), then
a fresh notification is registered and its id stored. -/
def scheduleAlarmCaptured (capturedId : Option Nat) (s : AlarmState) : AlarmState :=
  let s1 :=
    match capturedId with
    | none => s
    | some id =>
        { s with pending := s.pending.erase id, notification := none,
                 debugInfo := some "Alarm canceled" }
  { s1 with pending := s1.pending ++ [s1.nextId],
            notification := some s1.nextId,
            nextId := s1.nextId + 1,
            debugInfo := some "Alarm scheduled" }

/-- Editing the wake time while the alarm is enabled, in the overlapping
interleaving the source permits: `saveChanges` (src/components/Alarm.tsx
lines 345-353) calls `scheduleAlarm()` directly from the pre-edit render's
closure, and the `setDate` re-render re-fires the
`[isEnabled, date, hasPermission]` effect (lines 176-201), which calls
`scheduleAlarm()` again. When the effect's closure is created after the
first call's `setNotification(null)` (inside its `cancelAlarm`) flushed
but before its `setNotification(newId)` flushed, the second invocation
captures `notification = null`: its cancel is a no-op and it registers a
second notification on top of the first call's. -/
def editWhileEnabledRace (s : AlarmState) : AlarmState :=
  let sA := scheduleAlarmCaptured s.notification s
  scheduleAlarmCaptured none sA

/-- User-level operations that reach `scheduleAlarm`/`cancelAlarm`, in the
interleaving where every invocation's `setNotification` flushes before the
next closure is created: enabling runs `scheduleAlarm`; editing the time
while enabled runs `scheduleAlarm` twice (`saveChanges`' direct call, then
the `[isEnabled, date, hasPermission]` effect after the `setDate`
re-render), the second call seeing the first's stored id; disabling runs
`cancelAlarm`. `editWhileEnabledRace` is the overlapping interleaving of
the same edit. -/
inductive AlarmOp
  | enable
  | disable
  | editTime
deriving Repr, DecidableEq

def applyAlarmOp (s : AlarmState) (op : AlarmOp) : AlarmState :=
  match op with
  | AlarmOp.enable => scheduleAlarm s
  | AlarmOp.editTime => scheduleAlarm (scheduleAlarm s)
  | AlarmOp.disable => cancelAlarm s

def initialAlarmState : AlarmState :=
  { pending := [], notification := none, nextId := 0, debugInfo := none }

/-- Component-state/host-state coupling: the host's pending list is exactly
the stored notification id (when present). -/
def AlarmInv (s : AlarmState) : Prop := s.pending = s.notification.toList

/-! ## Wake Dispatcher listeners (src/components/Alarm.tsx, lines 126-146)

Two host callbacks are installed: `addNotificationReceivedListener`
(delivered while foregrounded) and `addNotificationResponseReceivedListener`
(user tapped). Each one calls `onTrigger()` whenever the notification's
`data.action` is `"startMyDay"`; there is no shared state between them. -/

structure WakeSignalData where
  action : Option String
deriving Repr, DecidableEq

inductive WakeSignal
  | received (data : WakeSignalData)
  | response (data : WakeSignalData)
deriving Repr, DecidableEq

/-- The received-notification listener fires `onTrigger` iff
`notification.request.content.data?.action === "startMyDay"`. -/
def receivedListenerFires (d : WakeSignalData) : Bool :=
  d.action == some "startMyDay"

/-- The response (tap) listener fires `onTrigger` under the same condition. -/
def responseListenerFires (d : WakeSignalData) : Bool :=
  d.action == some "startMyDay"

def signalFires : WakeSignal → Bool
  | WakeSignal.received d => receivedListenerFires d
  | WakeSignal.response d => responseListenerFires d

/-- Total number of `onTrigger()` invocations over a sequence of incoming
wake signals, each handled independently by its listener. -/
def onTriggerCount : List WakeSignal → Nat
  | [] => 0
  | sg :: rest => (if signalFires sg then 1 else 0) + onTriggerCount rest

/-! ## Resume reconciliation (src/components/Alarm.tsx, lines 149-162)

The `AppState` listener is installed inside the mount-only effect
(`useEffect(..., [])`). Its callback reads the `isEnabled` const of the
first render — `useState(false)`'s initial value — because `setIsEnabled`
never mutates the binding an existing closure captured. On `"active"` it
reschedules iff `isEnabled && notifications.length === 0`. -/

def initialIsEnabled : Bool := false

/-- The listener's decision, parametrised by the `isEnabled` value its
closure captured: reschedule iff captured `isEnabled` is true and the host
reports zero pending notifications. -/
def appStateRescheduleFires (capturedIsEnabled : Bool) (pendingCount : Nat) : Bool :=
  capturedIsEnabled && (pendingCount == 0)

/-- The listener as actually mounted: its captured `isEnabled` is the
initial state value. -/
def mountedRescheduleFires (pendingCount : Nat) : Bool :=
  appStateRescheduleFires initialIsEnabled pendingCount

/-! ## Background Pre-warm Task (src/components/Alarm.tsx, lines 25-61)

`TaskManager.defineTask` body: read all scheduled notifications; for each
with `data.type === "alarm"`, compute `timeDiff = (trigger - now) / 1000`
seconds; if `timeDiff > 0 && timeDiff < 60`, call `Audio.setAudioModeAsync`
(silent-mode/background playback routing). The whole body is wrapped in
`try/catch` returning `BackgroundFetchResult.Failed` on error and
`BackgroundFetchResult.NewData` on success. -/

structure ScheduledNotif where
  dataType : Option String
  triggerValue : Int
deriving Repr, DecidableEq

/-- Audio-subsystem effects the task could issue. The task body only ever
issues `prepareAudioMode` (the `Audio.setAudioModeAsync` call); a
`fullReenable` (`Audio.setIsEnabledAsync`-style reset) appears nowhere in
the task. -/
inductive AudioAction
  | prepareAudioMode
  | fullReenable
deriving Repr, DecidableEq

/-- `(triggerTime.getTime() - now.getTime()) / 1000`, in seconds. -/
def timeDiff (triggerMs nowMs : Int) : ℚ :=
  ((triggerMs - nowMs : Int) : ℚ) / 1000

/-- Effects issued for one scheduled notification by the task's loop body. -/
def prewarmActionsFor (nowMs : Int) (n : ScheduledNotif) : List AudioAction :=
  if n.dataType = some "alarm" then
    if 0 < timeDiff n.triggerValue nowMs ∧ timeDiff n.triggerValue nowMs < 60 then
      [AudioAction.prepareAudioMode]
    else []
  else []

/-- Effects issued by one task invocation over the host's full list of
scheduled notifications, in order. -/
def backgroundTaskActions (nowMs : Int) (notifs : List ScheduledNotif) : List AudioAction :=
  notifs.foldr (fun n acc => prewarmActionsFor nowMs n ++ acc) []

inductive BackgroundFetchResult
  | NewData
  | NoData
  | Failed
deriving Repr, DecidableEq

/-- One task invocation's fallible collaborators:
`getAllScheduledNotificationsAsync` and `Audio.setAudioModeAsync`. -/
structure TaskEnv where
  fetchScheduled : Except String (List ScheduledNotif)
  audioSetResult : Except String Unit

/-- The task's loop over scheduled notifications, without the `try/catch`:
an `Audio.setAudioModeAsync` failure propagates. -/
def prewarmLoop (env : TaskEnv) (nowMs : Int) : List ScheduledNotif → Except String Unit
  | [] => Except.ok ()
  | n :: rest =>
      if (prewarmActionsFor nowMs n).isEmpty then prewarmLoop env nowMs rest
      else
        match env.audioSetResult with
        | Except.ok _ => prewarmLoop env nowMs rest
        | Except.error e => Except.error e

/-- The task body without its `try/catch`: any thrown error propagates. -/
def backgroundTaskBody (env : TaskEnv) (nowMs : Int) : Except String BackgroundFetchResult :=
  match env.fetchScheduled with
  | Except.error e => Except.error e
  | Except.ok notifs =>
      match prewarmLoop env nowMs notifs with
      | Except.ok _ => Except.ok BackgroundFetchResult.NewData
      | Except.error e => Except.error e

/-- The task as defined in the source: body wrapped in `try/catch`, with the
catch returning `BackgroundFetchResult.Failed`. -/
def backgroundTask (env : TaskEnv) (nowMs : Int) : BackgroundFetchResult :=
  match backgroundTaskBody env nowMs with
  | Except.ok r => r
  | Except.error _ => BackgroundFetchResult.Failed

/-! ## Morning Routine Orchestrator (src/unnamed/part_001, `StartMyDay`,
lines 172-457)

React state: `step`, `isLoading`, `isSpeaking`, `podcastControl`,
`calendarSummary`, `error`, plus the `speechTimeoutRef` timer handle. The
30-second safety timeout armed in `handleCalendarResponse` is a closure
over the `step` const of the render in which the handler ran; the armed
timeout therefore tests that captured value, not the live state, when it
fires. `toPodcastCount` counts invocations of `moveToPodcast`, i.e.
transitions into `playing-podcast`. -/

inductive Step
  | idle
  | fetchingCalendar
  | speaking
  | playingPodcast
deriving Repr, DecidableEq

inductive PodcastControl
  | play
  | pause
  | refresh
deriving Repr, DecidableEq

structure OrchState where
  step : Step
  isLoading : Bool
  isSpeaking : Bool
  podcastControl : Option PodcastControl
  calendarSummary : Option String
  error : Option String
  timeoutCapturedStep : Option Step
  toPodcastCount : Nat
deriving Repr, DecidableEq

def initOrch : OrchState :=
  { step := Step.idle, isLoading := false, isSpeaking := false,
    podcastControl := none, calendarSummary := none, error := none,
    timeoutCapturedStep := none, toPodcastCount := 0 }

/-- `moveToPodcast`: `setStep('playing-podcast')` then, after a 500 ms
delay, `setPodcastControl('play')`. -/
def moveToPodcast (s : OrchState) : OrchState :=
  { s with step := Step.playingPodcast,
           podcastControl := some PodcastControl.play,
           toPodcastCount := s.toPodcastCount + 1 }

/-- `handleCalendarResponse(response)`: store the summary, clear loading,
enter `speaking`, clear any previous timer and arm the 30-second safety
timeout. `renderStep` is the `step` const of the render in which this
handler closure was created (the live `step` at the moment it runs, since
React flushes state updates at each `await` point before the fetch
completes); the armed timeout closure captures exactly this value. -/
def handleCalendarResponse (renderStep : Step) (response : String) (s : OrchState) : OrchState :=
  { s with calendarSummary := some response,
           isLoading := false,
           step := Step.speaking,
           isSpeaking := true,
           timeoutCapturedStep := some renderStep }

/-- The 30-second safety timeout firing: the callback runs
`if (step === 'speaking') { Speech.stop(); setIsSpeaking(false);
moveToPodcast(); }` where `step` is the captured render value. A fired
timer is spent either way. -/
def fireSpeechTimeout (s : OrchState) : OrchState :=
  match s.timeoutCapturedStep with
  | none => s
  | some captured =>
      let s1 := { s with timeoutCapturedStep := none }
      if captured = Step.speaking then
        moveToPodcast { s1 with isSpeaking := false }
      else s1

/-- The speech collaborator's `onDone` callback: clear the safety timeout
and advance to the podcast stage. -/
def speechOnDone (s : OrchState) : OrchState :=
  moveToPodcast { s with isSpeaking := false, timeoutCapturedStep := none }

/-- State updates performed synchronously at the start of `startMyDay`:
loading on, error cleared, `fetching-calendar`, podcast control reset,
ongoing speech stopped, any leftover safety timeout cleared. -/
def startMyDayEnter (s : OrchState) : OrchState :=
  { s with isLoading := true,
           error := none,
           step := Step.fetchingCalendar,
           podcastControl := none,
           isSpeaking := false,
           timeoutCapturedStep := none }

/-! ## Calendar fetch outcomes (src/unnamed/part_004, `CalendarFetcher`,
`fetchAndProcessEvents`, lines 333-411)

Every failure path inside `fetchAndProcessEvents` is handled locally
(early `return` on denied permission, inner `catch` for the API call,
outer `catch` for calendar reads) and only sets the fetcher's local
`error` state; the returned promise resolves in all of these cases, and
`onApiResponse` is invoked only on API success. -/

inductive FetchOutcome
  | permissionDenied
  | readError
  | apiRequestFailed
  | apiNotOk (errMsg : Option String)
  | ok (summary : String)
deriving Repr, DecidableEq

structure FetcherResult where
  fetcherError : Option String
  callbackSummary : Option String
  rejected : Bool
deriving Repr, DecidableEq

/-- Observable result of one `fetchAndProcessEvents()` call: which local
error it records, whether it invokes `onApiResponse`, and whether its
promise rejects. -/
def fetchAndProcessEvents : FetchOutcome → FetcherResult
  | FetchOutcome.permissionDenied =>
      { fetcherError := some "Calendar permission is required",
        callbackSummary := none, rejected := false }
  | FetchOutcome.readError =>
      { fetcherError := some "Failed to fetch calendar events",
        callbackSummary := none, rejected := false }
  | FetchOutcome.apiRequestFailed =>
      { fetcherError := some "API request failed",
        callbackSummary := none, rejected := false }
  | FetchOutcome.apiNotOk errMsg =>
      { fetcherError := some (errMsg.getD "Failed to get summary"),
        callbackSummary := none, rejected := false }
  | FetchOutcome.ok summary =>
      { fetcherError := none, callbackSummary := some summary, rejected := false }

/-- One `startMyDay()` run up to the calendar stage's settlement: enter the
routine, run the fetch, then either the orchestrator's `.catch` (promise
rejection) sets error/idle, or the resolved fetch invokes
`handleCalendarResponse` iff it produced a summary. Returns the
orchestrator state and the fetcher's local result. -/
def runStartMyDay (outcome : FetchOutcome) : OrchState × FetcherResult :=
  let s := startMyDayEnter initOrch
  let r := fetchAndProcessEvents outcome
  if r.rejected then
    ({ s with error := some "Calendar fetch error", isLoading := false,
              step := Step.idle }, r)
  else
    match r.callbackSummary with
    | some summary => (handleCalendarResponse s.step summary s, r)
    | none => (s, r)

/-! ## Calendar request formatting (src/unnamed/part_004, lines 349-381)

Events from all readable calendars are concatenated, sorted in place by
`new Date(a.startDate).getTime() - new Date(b.startDate).getTime()`, and
rendered one string per event joined by newlines; with no events the
request is the literal `"No events scheduled for today"`. -/

structure CalEvent where
  title : String
  startDate : Nat
  endDate : Nat
  allDay : Bool
  location : String
  notes : String
deriving Repr, DecidableEq

def pad2 (n : Nat) : String :=
  if n < 10 then "0" ++ toString n else toString n

/-- date-fns `format(date, 'h:mm a')`: 12-hour clock without leading zero,
zero-padded minutes, `AM`/`PM`. -/
def formatHmmA (ms : Nat) : String :=
  let minutes := ms / 60000 % 1440
  let h24 := minutes / 60
  let m := minutes % 60
  let h12 := if h24 % 12 = 0 then 12 else h24 % 12
  let ampm := if h24 < 12 then "AM" else "PM"
  toString h12 ++ ":" ++ pad2 m ++ " " ++ ampm

/-- One event's rendered line: `` `${title} (${timeStr})` `` plus
`` ` at ${location}` `` and `` ` - ${notes}` `` when those fields are
truthy (JS: the empty string is falsy). -/
def eventLine (e : CalEvent) : String :=
  let timeStr :=
    if e.allDay then "All day"
    else formatHmmA e.startDate ++ " - " ++ formatHmmA e.endDate
  let base := e.title ++ " (" ++ timeStr ++ ")"
  let withLoc := if e.location = "" then base else base ++ " at " ++ e.location
  if e.notes = "" then withLoc else withLoc ++ " - " ++ e.notes

/-- The sort comparator `(a, b) => start(a) - start(b)` as a Boolean
ordering on start times. -/
def startLe (a b : CalEvent) : Bool := a.startDate ≤ b.startDate

/-- `allEvents.sort(...)` by ascending start time. -/
def sortByStart (l : List CalEvent) : List CalEvent := l.mergeSort startLe

/-- The request string sent to the summarization service. -/
def formattedRequest (events : List CalEvent) : String :=
  if events.length > 0 then
    String.intercalate "\n" ((sortByStart events).map eventLine)
  else "No events scheduled for today"

/-! ## Helper lemmas -/

lemma cancelAlarm_notification (s : AlarmState) :
    (cancelAlarm s).notification = none := by
  unfold cancelAlarm
  cases hn : s.notification with
  | none => exact hn
  | some id => rfl

lemma alarmInv_cancel (s : AlarmState) (h : AlarmInv s) :
    AlarmInv (cancelAlarm s) := by
  unfold AlarmInv cancelAlarm at *
  cases hn : s.notification with
  | none => simpa [hn] using h
  | some id =>
      rw [hn] at h
      simp [h]

lemma alarmInv_schedule (s : AlarmState) (h : AlarmInv s) :
    AlarmInv (scheduleAlarm s) := by
  have h1 := alarmInv_cancel s h
  have h2 := cancelAlarm_notification s
  unfold AlarmInv at *
  unfold scheduleAlarm
  simp only []
  rw [h1, h2]
  rfl

lemma alarmInv_applyOp (s : AlarmState) (op : AlarmOp) (h : AlarmInv s) :
    AlarmInv (applyAlarmOp s op) := by
  cases op with
  | enable => exact alarmInv_schedule s h
  | editTime => exact alarmInv_schedule _ (alarmInv_schedule s h)
  | disable => exact alarmInv_cancel s h

/-- `scheduleAlarm` is the captured-closure invocation whose captured
`notification` is the current one (no overlap). -/
lemma scheduleAlarm_eq_captured (s : AlarmState) :
    scheduleAlarm s = scheduleAlarmCaptured s.notification s := by
  unfold scheduleAlarm scheduleAlarmCaptured cancelAlarm
  cases s.notification <;> rfl

lemma alarmInv_foldl (ops : List AlarmOp) :
    ∀ s : AlarmState, AlarmInv s → AlarmInv (ops.foldl applyAlarmOp s) := by
  induction ops with
  | nil => intro s h; exact h
  | cons op rest ih =>
      intro s h
      exact ih (applyAlarmOp s op) (alarmInv_applyOp s op h)

lemma startLe_trans (a b c : CalEvent)
    (hab : startLe a b = true) (hbc : startLe b c = true) : startLe a c = true := by
  unfold startLe at *
  simp only [decide_eq_true_eq] at *
  exact le_trans hab hbc

lemma startLe_total (a b : CalEvent) : (startLe a b || startLe b a) = true := by
  unfold startLe
  rcases Nat.le_total a.startDate b.startDate with h | h <;> simp [h]

lemma prewarmActionsFor_no_fullReenable (nowMs : Int) (n : ScheduledNotif) :
    AudioAction.fullReenable ∉ prewarmActionsFor nowMs n := by
  unfold prewarmActionsFor
  split
  · split
    · simp
    · simp
  · simp

/-! ## Claim theorems -/

/-- Claim C3: for every requested wall-clock time-of-day, `scheduleAlarm`
rolls the trigger to the same time-of-day on the next calendar day when the
naive today-plus-time combination is less than or equal to the current
instant (equality included), and keeps it today when the combination is
strictly later than the current instant. -/
theorem schedule_rollover (now tod : Nat) (h : tod < msPerDay) :
    (dayIndex now * msPerDay + tod ≤ now →
      dayIndex (computeTriggerTime (dayIndex now * msPerDay + tod) now) = dayIndex now + 1 ∧
      msOfDay (computeTriggerTime (dayIndex now * msPerDay + tod) now) = tod) ∧
    (now < dayIndex now * msPerDay + tod →
      dayIndex (computeTriggerTime (dayIndex now * msPerDay + tod) now) = dayIndex now ∧
      msOfDay (computeTriggerTime (dayIndex now * msPerDay + tod) now) = tod) := by
  unfold computeTriggerTime addOneDay
  constructor
  · intro hle
    rw [if_pos hle]
    unfold dayIndex msOfDay msPerDay at *
    omega
  · intro hgt
    rw [if_neg (by omega)]
    unfold dayIndex msOfDay msPerDay at *
    omega

/-- Claim C3 witness: at `now` = day 100 plus 5000 ms, a requested
time-of-day of 5000 ms (equal to now: rolls to day 101) and of 6000 ms
(strictly later: stays on day 100). -/
theorem schedule_rollover_witness :
    (dayIndex (computeTriggerTime (dayIndex 8640005000 * msPerDay + 5000) 8640005000)
        = dayIndex 8640005000 + 1 ∧
      msOfDay (computeTriggerTime (dayIndex 8640005000 * msPerDay + 5000) 8640005000) = 5000) ∧
    (dayIndex (computeTriggerTime (dayIndex 8640005000 * msPerDay + 6000) 8640005000)
        = dayIndex 8640005000 ∧
      msOfDay (computeTriggerTime (dayIndex 8640005000 * msPerDay + 6000) 8640005000) = 6000) :=
  ⟨(schedule_rollover 8640005000 5000 (by decide)).1 (by decide),
   (schedule_rollover 8640005000 6000 (by decide)).2 (by decide)⟩

/-- Claim C6 counterexample: enable, then edit the time while enabled, in
the overlapping interleaving the source permits (`saveChanges`' direct
`scheduleAlarm` plus the date effect's `scheduleAlarm`, the second
capturing `notification = null`): two notifications end up registered with
the host — refuting "at most one Trigger is registered at any time" — and
the stale one survives a subsequent disable (`cancelAlarm` removes only
the stored id), an orphaned trigger. -/
theorem editRace_twoTriggers :
    ((editWhileEnabledRace (scheduleAlarm initialAlarmState)).pending).length = 2 ∧
    ¬ ((editWhileEnabledRace (scheduleAlarm initialAlarmState)).pending).length ≤ 1 ∧
    (cancelAlarm (editWhileEnabledRace (scheduleAlarm initialAlarmState))).pending = [1] ∧
    (cancelAlarm (editWhileEnabledRace (scheduleAlarm initialAlarmState))).notification
      = none := by
  decide

/-- Claim C6 amended: every single `scheduleAlarm` invocation cancels the
handle its closure holds before registering a fresh one, so any sequence
of enable/disable/edit operations in which each invocation's stored-id
update flushes before the next closure is created (including the edit's
two back-to-back `scheduleAlarm` calls) leaves at most one registered
trigger; but in the overlapping interleaving of an edit, the second
invocation's cancel misses the first's fresh registration, leaving two
registered triggers of which one is orphaned and survives a disable. -/
theorem atMostOneTrigger_amended (ops : List AlarmOp) :
    ((ops.foldl applyAlarmOp initialAlarmState).pending).length ≤ 1 ∧
    ((editWhileEnabledRace (scheduleAlarm initialAlarmState)).pending).length = 2 ∧
    (cancelAlarm (editWhileEnabledRace (scheduleAlarm initialAlarmState))).pending
      = [1] := by
  refine ⟨?_, by decide, by decide⟩
  have h := alarmInv_foldl ops initialAlarmState rfl
  unfold AlarmInv at h
  rw [h]
  cases (ops.foldl applyAlarmOp initialAlarmState).notification <;> simp

/-- Claim C7: invoking `cancelAlarm` with a trigger registered removes it —
the stored id is cleared and its host entry erased, emptying the host's
pending list when it held exactly that trigger; `cancelAlarm` is
idempotent (a second cancel changes nothing), cancelling with no
registered trigger is a no-op, and a host failure is swallowed by the
`try/catch` (the caught function returns a state — only `debugInfo`
records the error — instead of propagating). -/
theorem cancel_idempotent_total (s : AlarmState) (hostOk : Bool) :
    (∀ id, s.notification = some id →
      (cancelAlarmCaught true s).notification = none ∧
      (cancelAlarmCaught true s).pending = s.pending.erase id ∧
      (AlarmInv s → (cancelAlarmCaught true s).pending = [])) ∧
    cancelAlarmCaught hostOk (cancelAlarmCaught hostOk s) = cancelAlarmCaught hostOk s ∧
    (s.notification = none → cancelAlarmCaught hostOk s = s) ∧
    (∀ e, cancelAlarmBody hostOk s = Except.error e →
      cancelAlarmCaught hostOk s = { s with debugInfo := some ("Error: " ++ e) }) := by
  refine ⟨?_, ?_, ?_, ?_⟩
  · intro id hn
    refine ⟨?_, ?_, ?_⟩
    · simp [cancelAlarmCaught, cancelAlarmBody, hn]
    · simp [cancelAlarmCaught, cancelAlarmBody, hn]
    · intro hinv
      unfold AlarmInv at hinv
      rw [hn] at hinv
      simp [cancelAlarmCaught, cancelAlarmBody, hn, hinv]
  · cases hostOk <;> cases hn : s.notification <;>
      simp [cancelAlarmCaught, cancelAlarmBody, hn]
  · intro hn
    simp [cancelAlarmCaught, cancelAlarmBody, hn]
  · intro e he
    simp [cancelAlarmCaught, he]

/-- Claim C7 witness: cancelling a registered trigger clears the stored id
and empties the host's pending list; concrete double cancel; cancel on an
empty state; and a host failure swallowed into `debugInfo`. -/
theorem cancel_idempotent_total_witness :
    ((cancelAlarmCaught true ⟨[5], some 5, 6, none⟩).notification = none) ∧
    ((cancelAlarmCaught true ⟨[5], some 5, 6, none⟩).pending = []) ∧
    (cancelAlarmCaught true (cancelAlarmCaught true ⟨[5], some 5, 6, none⟩) =
      cancelAlarmCaught true ⟨[5], some 5, 6, none⟩) ∧
    (cancelAlarmCaught true ⟨[], none, 0, none⟩ = ⟨[], none, 0, none⟩) ∧
    (cancelAlarmCaught false ⟨[5], some 5, 6, none⟩ =
      ⟨[5], some 5, 6, some "Error: cancelScheduledNotificationAsync failed"⟩) :=
  ⟨((cancel_idempotent_total ⟨[5], some 5, 6, none⟩ true).1 5 rfl).1,
   ((cancel_idempotent_total ⟨[5], some 5, 6, none⟩ true).1 5 rfl).2.2 rfl,
   (cancel_idempotent_total ⟨[5], some 5, 6, none⟩ true).2.1,
   (cancel_idempotent_total ⟨[], none, 0, none⟩ true).2.2.1 rfl,
   (cancel_idempotent_total ⟨[5], some 5, 6, none⟩ false).2.2.2
     "cancelScheduledNotificationAsync failed" rfl⟩

/-- Claim C2 counterexample: when both the delivered-notification signal and
the user-tap signal arrive for the same `startMyDay` trigger instance, the
listeners invoke `onTrigger` twice — not exactly once as the claim states;
no de-duplication by trigger identity or time exists in the source. -/
theorem dispatcher_bothSignals_twoTriggers :
    onTriggerCount
        [WakeSignal.received ⟨some "startMyDay"⟩,
         WakeSignal.response ⟨some "startMyDay"⟩] = 2 ∧
    onTriggerCount
        [WakeSignal.received ⟨some "startMyDay"⟩,
         WakeSignal.response ⟨some "startMyDay"⟩] ≠ 1 := by
  decide

/-- Claim C2 amended: each listener fires `onTrigger` independently for
every arriving signal whose `data.action` is `"startMyDay"`; in particular
when both the delivery and the tap signal arrive for the same trigger
instance, `onTrigger` is invoked twice. -/
theorem dispatcher_perSignal (d : WakeSignalData) (h : d.action = some "startMyDay") :
    onTriggerCount [WakeSignal.received d, WakeSignal.response d] = 2 := by
  simp [onTriggerCount, signalFires, receivedListenerFires, responseListenerFires, h]

/-- Claim C2 amended witness. -/
theorem dispatcher_perSignal_witness :
    onTriggerCount
        [WakeSignal.received ⟨some "startMyDay"⟩,
         WakeSignal.response ⟨some "startMyDay"⟩] = 2 :=
  dispatcher_perSignal ⟨some "startMyDay"⟩ rfl

/-- Claim C5 counterexample: for an alarm trigger 5 seconds away
(`secondsUntilFire ≤ 10`), the task performs only the lightweight
`prepareAudioMode`; the claimed escalation to a forced full audio-subsystem
re-enable never appears in the emitted effects. -/
theorem prewarm_noEscalation :
    backgroundTaskActions 0 [⟨some "alarm", 5000⟩] = [AudioAction.prepareAudioMode] ∧
    AudioAction.fullReenable ∉ backgroundTaskActions 0 [⟨some "alarm", 5000⟩] := by
  have hwin : (0 : ℚ) < timeDiff 5000 0 ∧ timeDiff 5000 0 < 60 := by
    unfold timeDiff
    norm_num
  constructor
  · simp [backgroundTaskActions, prewarmActionsFor, hwin]
  · simp [backgroundTaskActions, prewarmActionsFor, hwin]

/-- Claim C5 amended: on each invocation, for every registered trigger of
type `alarm` with `0 < secondsUntilFire < 60` the task performs the
lightweight audio prepare (and nothing more); for triggers outside that
window, or without the `alarm` type tag, it does nothing; a forced full
audio-subsystem re-enable is never issued, at any remaining time. -/
theorem prewarm_prepare_window (nowMs : Int) (n : ScheduledNotif) :
    (n.dataType = some "alarm" →
      0 < timeDiff n.triggerValue nowMs →
      timeDiff n.triggerValue nowMs < 60 →
      prewarmActionsFor nowMs n = [AudioAction.prepareAudioMode]) ∧
    (¬ (n.dataType = some "alarm" ∧ 0 < timeDiff n.triggerValue nowMs ∧
        timeDiff n.triggerValue nowMs < 60) →
      prewarmActionsFor nowMs n = []) ∧
    (∀ ns : List ScheduledNotif,
      AudioAction.fullReenable ∉ backgroundTaskActions nowMs ns) := by
  refine ⟨?_, ?_, ?_⟩
  · intro h1 h2 h3
    simp [prewarmActionsFor, h1, h2, h3]
  · intro hnot
    unfold prewarmActionsFor
    split
    · split
      · rename_i htype hwin
        exact absurd ⟨htype, hwin⟩ hnot
      · rfl
    · rfl
  · intro ns
    induction ns with
    | nil => simp [backgroundTaskActions]
    | cons n' rest ih =>
        unfold backgroundTaskActions at *
        simp only [List.foldr_cons, List.mem_append]
        rintro (hmem | hmem)
        · exact prewarmActionsFor_no_fullReenable nowMs n' hmem
        · exact ih hmem

/-- Claim C5 amended witness: a trigger 5 seconds out gets exactly the
lightweight prepare; a trigger 90 seconds out gets nothing. -/
theorem prewarm_prepare_window_witness :
    prewarmActionsFor 0 ⟨some "alarm", 5000⟩ = [AudioAction.prepareAudioMode] ∧
    prewarmActionsFor 0 ⟨some "alarm", 90000⟩ = [] :=
  ⟨(prewarm_prepare_window 0 ⟨some "alarm", 5000⟩).1 rfl
      (by unfold timeDiff; norm_num) (by unfold timeDiff; norm_num),
   (prewarm_prepare_window 0 ⟨some "alarm", 90000⟩).2.1
      (by unfold timeDiff; norm_num)⟩

/-- Claim C1 evaluation: in the run where the calendar response arrives
during `fetching-calendar` and the speech collaborator never invokes
`onDone`/`onError`, the armed 30-second safety timeout fires but its
closure compares the stale captured `step` (`fetching-calendar`) against
`'speaking'`, so `moveToPodcast` is never called: the state stays in
`speaking` with zero transitions to `playing-podcast`, and the podcast is
never started. A closure that had captured `'speaking'` would have
performed the transition, showing the guard alone blocks it. -/
theorem speechTimeout_staleStep_noTransition :
    (fireSpeechTimeout (handleCalendarResponse (startMyDayEnter initOrch).step
        "summary" (startMyDayEnter initOrch))).step = Step.speaking ∧
    (fireSpeechTimeout (handleCalendarResponse (startMyDayEnter initOrch).step
        "summary" (startMyDayEnter initOrch))).toPodcastCount = 0 ∧
    (fireSpeechTimeout (handleCalendarResponse (startMyDayEnter initOrch).step
        "summary" (startMyDayEnter initOrch))).podcastControl = none ∧
    (fireSpeechTimeout (handleCalendarResponse Step.speaking
        "summary" (startMyDayEnter initOrch))).step = Step.playingPodcast := by
  decide

/-- Claim C4 evaluation: on each calendar-fetch failure mode (permission
denied, calendar read error, API failure) the fetcher records the error
locally and its promise still resolves, so the orchestrator's `.catch`
(the only code path that sets `idle`) never runs: the routine remains in
`fetching-calendar` with `isLoading` stuck true, rather than transitioning
to `idle` as the claim states. The parts of the claim about the podcast
stage and audio-producing stages do hold: `podcastControl` stays unset and
speech is never started. -/
theorem calendarFailure_staysFetching :
    ((runStartMyDay FetchOutcome.permissionDenied).1.step = Step.fetchingCalendar ∧
      (runStartMyDay FetchOutcome.permissionDenied).1.step ≠ Step.idle ∧
      (runStartMyDay FetchOutcome.permissionDenied).1.isLoading = true ∧
      (runStartMyDay FetchOutcome.permissionDenied).1.podcastControl = none ∧
      (runStartMyDay FetchOutcome.permissionDenied).1.isSpeaking = false ∧
      (runStartMyDay FetchOutcome.permissionDenied).2.fetcherError =
        some "Calendar permission is required") ∧
    (runStartMyDay FetchOutcome.readError).1.step = Step.fetchingCalendar ∧
    (runStartMyDay FetchOutcome.apiRequestFailed).1.step = Step.fetchingCalendar ∧
    (runStartMyDay (FetchOutcome.apiNotOk none)).1.step = Step.fetchingCalendar := by
  decide

/-- Claim C8 evaluation: the mounted AppState listener's reschedule
decision is false for every pending-notification count, because its
closure captured the initial `isEnabled` value (false) — so the
self-healing re-registration never happens even when the alarm is
currently enabled; had the closure captured the live value `true`, the
decision at zero pending notifications would be to reschedule. -/
theorem resumeReconciliation_dead :
    (∀ pendingCount : Nat, mountedRescheduleFires pendingCount = false) ∧
    appStateRescheduleFires true 0 = true := by
  constructor
  · intro pendingCount
    rfl
  · rfl

/-- Claim C9: the background task's body is wrapped in a `try/catch`, so
every internal error is reported to the host scheduler as the status value
`Failed` rather than propagating, and a successful body's status is
returned unchanged. -/
theorem backgroundTask_reportsStatus (env : TaskEnv) (nowMs : Int) :
    (∀ e, backgroundTaskBody env nowMs = Except.error e →
      backgroundTask env nowMs = BackgroundFetchResult.Failed) ∧
    (∀ r, backgroundTaskBody env nowMs = Except.ok r →
      backgroundTask env nowMs = r) := by
  constructor
  · intro e he
    simp [backgroundTask, he]
  · intro r hr
    simp [backgroundTask, hr]

/-- Claim C9 witness: a failing notification fetch yields status `Failed`;
an erroring `setAudioModeAsync` inside the warm-up window yields `Failed`;
a clean run yields `NewData`. -/
theorem backgroundTask_reportsStatus_witness :
    backgroundTask ⟨Except.error "fetch failed", Except.ok ()⟩ 0 =
      BackgroundFetchResult.Failed ∧
    backgroundTask ⟨Except.ok [⟨some "alarm", 5000⟩], Except.error "audio failed"⟩ 0 =
      BackgroundFetchResult.Failed ∧
    backgroundTask ⟨Except.ok [], Except.ok ()⟩ 0 = BackgroundFetchResult.NewData :=
  ⟨(backgroundTask_reportsStatus ⟨Except.error "fetch failed", Except.ok ()⟩ 0).1
      "fetch failed" rfl,
   (backgroundTask_reportsStatus
      ⟨Except.ok [⟨some "alarm", 5000⟩], Except.error "audio failed"⟩ 0).1
      "audio failed" (by
        unfold backgroundTaskBody prewarmLoop prewarmActionsFor timeDiff
        norm_num),
   (backgroundTask_reportsStatus ⟨Except.ok [], Except.ok ()⟩ 0).2
      BackgroundFetchResult.NewData rfl⟩

/-- Claim C10: with zero events across all readable calendars the request
string is exactly `"No events scheduled for today"`; with one or more
events, the request is the newline-join of one rendered line per event,
over a permutation of the events that is sorted ascending by start time. -/
theorem formattedRequest_spec (events : List CalEvent) :
    (events = [] → formattedRequest events = "No events scheduled for today") ∧
    (events ≠ [] →
      (sortByStart events).Perm events ∧
      List.Pairwise (fun a b => a.startDate ≤ b.startDate) (sortByStart events) ∧
      (sortByStart events).length = events.length ∧
      formattedRequest events =
        String.intercalate "\n" ((sortByStart events).map eventLine)) := by
  constructor
  · intro h
    subst h
    rfl
  · intro h
    have hperm : (sortByStart events).Perm events := List.mergeSort_perm events startLe
    refine ⟨hperm, ?_, hperm.length_eq, ?_⟩
    · have hs : List.Pairwise (fun a b => startLe a b = true)
          (List.mergeSort events startLe) :=
        List.sorted_mergeSort startLe_trans startLe_total events
      exact hs.imp (fun hab => of_decide_eq_true hab)
    · unfold formattedRequest
      rw [if_pos (List.length_pos.mpr h)]

/-- Claim C10 witness: the empty calendar yields the exact no-events
string, and two out-of-order events are joined sorted, one line each. -/
theorem formattedRequest_spec_witness :
    formattedRequest [] = "No events scheduled for today" ∧
    formattedRequest
        [⟨"Lunch", 43200000, 46800000, false, "Cafe", ""⟩,
         ⟨"Standup", 32400000, 34200000, false, "", ""⟩] =
      String.intercalate "\n"
        ((sortByStart
            [⟨"Lunch", 43200000, 46800000, false, "Cafe", ""⟩,
             ⟨"Standup", 32400000, 34200000, false, "", ""⟩]).map eventLine) :=
  ⟨(formattedRequest_spec []).1 rfl,
   ((formattedRequest_spec
        [⟨"Lunch", 43200000, 46800000, false, "Cafe", ""⟩,
         ⟨"Standup", 32400000, 34200000, false, "", ""⟩]).2
      (List.cons_ne_nil _ _)).2.2.2⟩

end SmartAlarm
